import Mathlib

/-!
Verification of the lane-graph navigation and agent simulation engine of the
`gta` city demo (source files `assets/js/car.js`, `assets/js/npc.js`,
`assets/js/character.js`).

Modelling conventions:
* JavaScript numbers are IEEE doubles; every quantity handled by the navigation
  core (grid coordinates, lane offsets, progress, speeds, delta times) is
  modelled as an exact rational (`ℚ`).  All constants appearing in the source
  (15, 1.2, 0.01, …) are exactly representable and none of the comparisons
  proved below are decided inside the floating-point error of these values.
* `Math.sqrt d2 < r` (with `r ≥ 0`) is modelled as the equivalent `d2 < r * r`,
  avoiding irrational square roots.
* JavaScript `Set` objects are modelled as duplicate-free `List String` with
  `insertId` as `Set.add` and `List.filter (· != id)` as `Set.delete`.
* `Math.random()` draws and random index choices are passed in explicitly
  (`samples : ℕ → ℚ`, `pick : ℕ`, `doTurn : Bool`), making every routine a
  pure function of its inputs.
* Heading angles (`rotation.y`) are real numbers; `Math.atan2` is modelled by
  `atan2` below (the standard convention, matching JS for finite inputs).
-/

attribute [local semireducible] Rat.add Rat.sub Rat.mul Rat.inv Rat.ofScientific

set_option maxRecDepth 100000

namespace GTA

/-- A ground-plane point `{x, z}` (the y coordinate is fixed by the renderer
and never consulted by the navigation core). -/
structure Pt where
  x : ℚ
  z : ℚ
deriving DecidableEq

/-- A street lane as pushed onto `this.streets` by `generateStreetNetwork`
(car.js lines 330–392, npc.js lines 80–139).  The source field `end` is a
Lean keyword, hence the guillemets. -/
structure Lane where
  id : String
  start : Pt
  «end» : Pt
  direction : String
  lane : String
deriving DecidableEq

/-- An intersection record as pushed onto `this.intersections`
(car.js lines 403–410, npc.js lines 149–156). -/
structure Crossing where
  x : ℚ
  z : ℚ
  connectedStreets : List String
deriving DecidableEq

/-- The vehicle lane set built by `CarController.generateStreetNetwork`
(car.js lines 325–394): for every grid row / column index congruent to
1 mod 3, two opposite-direction lanes offset by `±laneWidth/2` from the
street centerline; horizontal lanes first (in row order, `right` before
`left`), then vertical lanes (`down` before `up`). -/
def carLanes (gridSize : ℕ) (blockSize laneWidth : ℚ) : List Lane :=
  ((List.range gridSize).flatMap fun z =>
    if z % 3 = 1 then
      let streetZ : ℚ := ((z : ℚ) - (gridSize : ℚ) / 2) * blockSize
      [ { id := "h_" ++ toString z ++ "_right",
          start := ⟨-((gridSize : ℚ) * blockSize) / 2, streetZ - laneWidth / 2⟩,
          «end» := ⟨((gridSize : ℚ) * blockSize) / 2, streetZ - laneWidth / 2⟩,
          direction := "horizontal", lane := "right" },
        { id := "h_" ++ toString z ++ "_left",
          start := ⟨((gridSize : ℚ) * blockSize) / 2, streetZ + laneWidth / 2⟩,
          «end» := ⟨-((gridSize : ℚ) * blockSize) / 2, streetZ + laneWidth / 2⟩,
          direction := "horizontal", lane := "left" } ]
    else []) ++
  ((List.range gridSize).flatMap fun x =>
    if x % 3 = 1 then
      let streetX : ℚ := ((x : ℚ) - (gridSize : ℚ) / 2) * blockSize
      [ { id := "v_" ++ toString x ++ "_down",
          start := ⟨streetX - laneWidth / 2, -((gridSize : ℚ) * blockSize) / 2⟩,
          «end» := ⟨streetX - laneWidth / 2, ((gridSize : ℚ) * blockSize) / 2⟩,
          direction := "vertical", lane := "down" },
        { id := "v_" ++ toString x ++ "_up",
          start := ⟨streetX + laneWidth / 2, ((gridSize : ℚ) * blockSize) / 2⟩,
          «end» := ⟨streetX + laneWidth / 2, -((gridSize : ℚ) * blockSize) / 2⟩,
          direction := "vertical", lane := "up" } ]
    else [])

/-- The pedestrian sidewalk lane set built by
`NonPlayableCharacter.generateStreetNetwork` (npc.js lines 67–141): same
pattern as `carLanes` but offset by `sidewalkOffset = laneWidth * 4.0` and
with `_sw`-suffixed ids and lane tags. -/
def npcLanes (gridSize : ℕ) (blockSize laneWidth : ℚ) : List Lane :=
  let sidewalkOffset : ℚ := laneWidth * 4.0
  ((List.range gridSize).flatMap fun z =>
    if z % 3 = 1 then
      let streetZ : ℚ := ((z : ℚ) - (gridSize : ℚ) / 2) * blockSize
      [ { id := "h_" ++ toString z ++ "_right_sw",
          start := ⟨-((gridSize : ℚ) * blockSize) / 2, streetZ - sidewalkOffset⟩,
          «end» := ⟨((gridSize : ℚ) * blockSize) / 2, streetZ - sidewalkOffset⟩,
          direction := "horizontal", lane := "right_sw" },
        { id := "h_" ++ toString z ++ "_left_sw",
          start := ⟨((gridSize : ℚ) * blockSize) / 2, streetZ + sidewalkOffset⟩,
          «end» := ⟨-((gridSize : ℚ) * blockSize) / 2, streetZ + sidewalkOffset⟩,
          direction := "horizontal", lane := "left_sw" } ]
    else []) ++
  ((List.range gridSize).flatMap fun x =>
    if x % 3 = 1 then
      let streetX : ℚ := ((x : ℚ) - (gridSize : ℚ) / 2) * blockSize
      [ { id := "v_" ++ toString x ++ "_down_sw",
          start := ⟨streetX - sidewalkOffset, -((gridSize : ℚ) * blockSize) / 2⟩,
          «end» := ⟨streetX - sidewalkOffset, ((gridSize : ℚ) * blockSize) / 2⟩,
          direction := "vertical", lane := "down_sw" },
        { id := "v_" ++ toString x ++ "_up_sw",
          start := ⟨streetX + sidewalkOffset, ((gridSize : ℚ) * blockSize) / 2⟩,
          «end» := ⟨streetX + sidewalkOffset, -((gridSize : ℚ) * blockSize) / 2⟩,
          direction := "vertical", lane := "up_sw" } ]
    else [])

/-- `getConnectedStreets(x, z)` (car.js lines 420–446, npc.js lines 162–185;
the two differ only in the hard-coded `tolerance`): a lane is connected to the
intersection iff its fixed cross-axis coordinate is within `tolerance` of the
intersection and its stored `[start, end]` along-axis span contains the
intersection's along-axis coordinate. -/
def getConnectedStreets (streets : List Lane) (tolerance : ℚ) (x z : ℚ) : List String :=
  streets.filterMap fun street =>
    if street.direction = "horizontal" then
      if |street.start.z - z| < tolerance ∧ street.start.x ≤ x ∧ street.«end».x ≥ x
      then some street.id else none
    else
      if |street.start.x - x| < tolerance ∧ street.start.z ≤ z ∧ street.«end».z ≥ z
      then some street.id else none

/-- Intersection generation (car.js lines 397–413, npc.js lines 144–159):
one intersection per grid cell whose row and column indices are both
congruent to 1 mod 3. -/
def genIntersections (streets : List Lane) (tolerance : ℚ) (gridSize : ℕ) (blockSize : ℚ) :
    List Crossing :=
  (List.range gridSize).flatMap fun x =>
    (List.range gridSize).flatMap fun z =>
      if x % 3 = 1 ∧ z % 3 = 1 then
        let ix : ℚ := ((x : ℚ) - (gridSize : ℚ) / 2) * blockSize
        let iz : ℚ := ((z : ℚ) - (gridSize : ℚ) / 2) * blockSize
        [⟨ix, iz, getConnectedStreets streets tolerance ix iz⟩]
      else []

/-- The concrete vehicle lane list: `gridSize = 40`, `blockSize = 15`
(car.js lines 317–318) and `this.laneWidth = 1.2` (car.js line 20). -/
def carStreetsList : List Lane := carLanes 40 15 1.2

/-- The concrete vehicle intersection list (tolerance 2, car.js line 421). -/
def carIntersectionsList : List Crossing := genIntersections carStreetsList 2 40 15

/-- The concrete pedestrian sidewalk lane list: `gridSize = 40`,
`blockSize = 15` (npc.js lines 69–70), `this.laneWidth = 1.2` (npc.js
line 16). -/
def npcStreetsList : List Lane := npcLanes 40 15 1.2

/-- The concrete pedestrian intersection list (tolerance 8, npc.js line 163). -/
def npcIntersectionsList : List Crossing := genIntersections npcStreetsList 8 40 15

/-- A static obstacle (building footprint) as produced by the city generator
and consumed through `this.buildings`: an axis-aligned rectangle
`{x, z, width, depth}`.  In the Lean model every field is present, so the
JavaScript `=== undefined` guards are always false; the JavaScript falsy
guards (`!b.width` etc.) become `= 0` tests. -/
structure Building where
  x : ℚ
  z : ℚ
  width : ℚ
  depth : ℚ
deriving DecidableEq

/-- `CarController.checkCollision(newPosition)` (car.js lines 751–766):
AABB test of a candidate position against every building, with `carRadius`
padding.  A building is skipped when `!b.width || !b.depth`
(i.e. zero width or depth); the `b.x === undefined || b.z === undefined`
part of the guard cannot fire in the model. -/
def carCheckCollision (buildings : List Building) (carRadius : ℚ) (p : Pt) : Bool :=
  buildings.any fun b =>
    if b.width = 0 ∨ b.depth = 0 then false
    else
      let dx := p.x - b.x
      let dz := p.z - b.z
      let halfW := b.width / 2 + carRadius
      let halfD := b.depth / 2 + carRadius
      |dx| < halfW ∧ |dz| < halfD

/-- `BaseCharacter.checkCollision(newPosition)` (character.js lines 984–1021),
used by NPC spawning through `this.checkCollision`: same AABB test, but the
falsy skip guard is `!building.x || !building.z || !building.width ||
!building.depth`, so a building whose center x or z coordinate is exactly 0
is skipped as well. -/
def charCheckCollision (buildings : List Building) (characterRadius : ℚ) (p : Pt) : Bool :=
  buildings.any fun b =>
    if b.x = 0 ∨ b.z = 0 ∨ b.width = 0 ∨ b.depth = 0 then false
    else
      let dx := p.x - b.x
      let dz := p.z - b.z
      let halfW := b.width / 2 + characterRadius
      let halfD := b.depth / 2 + characterRadius
      |dx| < halfW ∧ |dz| < halfD

/-- Modelled from the spec (section 4.5 CollisionGuard): `collides(position,
obstacles, radius)` holds iff some obstacle satisfies
`|dx| < obstacle.width/2 + radius AND |dz| < obstacle.depth/2 + radius`.
Stated separately from the two implementations so the claim's iff can be
compared against them. -/
def specCollides (obstacles : List Building) (radius : ℚ) (p : Pt) : Prop :=
  ∃ b ∈ obstacles, |p.x - b.x| < b.width / 2 + radius ∧ |p.z - b.z| < b.depth / 2 + radius

/-- `isValidTurn(fromStreet, toStreet)` — identical in car.js lines 739–748
and npc.js lines 631–635: for identical `direction` the turn is valid iff
the lane tags differ; for differing `direction` it is always valid. -/
def isValidTurn (fromStreet toStreet : Lane) : Bool :=
  if fromStreet.direction = toStreet.direction then
    fromStreet.lane != toStreet.lane
  else true

/-- The per-car mutable state carried in `car.userData` (car.js lines
579–587) together with the car's scene position.  The visual-only fields
(`wheels`, the mesh itself) and `rotation.y` are omitted here; the heading
formulas are modelled separately by `carTurnRotY` / `npcTurnRotY`. -/
structure CarData where
  currentStreet : Lane
  progress : ℚ
  posX : ℚ
  posZ : ℚ
  speed : ℚ
  turnCooldown : ℚ
  isAtIntersection : Bool
deriving DecidableEq

/-- `CarController.performTurn(car, userData, intersection)` (car.js lines
701–737).  `pick` stands for the `Math.floor(Math.random() * length)` index
choice (reduced mod the candidate count).  When no candidate street remains
the car state is unchanged. -/
def performTurn (streets : List Lane) (itx : Crossing) (pick : ℕ) (c : CarData) : CarData :=
  let available := streets.filter fun street =>
    itx.connectedStreets.contains street.id && street.id != c.currentStreet.id &&
      isValidTurn c.currentStreet street
  match available with
  | [] => c
  | st0 :: _ =>
    let newStreet := available.getD (pick % available.length) st0
    { c with currentStreet := newStreet, progress := 0, turnCooldown := 2,
             posX := newStreet.start.x, posZ := newStreet.start.z }

/-- `CarController.checkForTurn(car, userData)` (car.js lines 677–699).
`doTurn` stands for the `Math.random() < 0.3` draw.  The nearby-intersection
test `Math.sqrt(dx² + dz²) < 8` is modelled as `dx² + dz² < 64`. -/
def checkForTurn (streets : List Lane) (intersections : List Crossing)
    (doTurn : Bool) (pick : ℕ) (c : CarData) : CarData :=
  let nearby := intersections.find? fun itx =>
    (itx.x - c.posX) * (itx.x - c.posX) + (itx.z - c.posZ) * (itx.z - c.posZ) < 64
  match nearby with
  | some itx =>
    if !c.isAtIntersection then
      let c1 := { c with isAtIntersection := true }
      if doTurn then performTurn streets itx pick c1 else c1
    else c
  | none => { c with isAtIntersection := false }

/-- The candidate position of one movement tick: linear interpolation of
`currentStreet.start` and `currentStreet.end` at the updated progress value
`progress + speed * deltaTime * 0.01` (car.js lines 620–627). -/
def carCandidate (dt : ℚ) (c : CarData) : Pt :=
  let p := c.progress + c.speed * dt * 0.01
  ⟨c.currentStreet.start.x + (c.currentStreet.«end».x - c.currentStreet.start.x) * p,
   c.currentStreet.start.z + (c.currentStreet.«end».z - c.currentStreet.start.z) * p⟩

/-- One car's advancement portion of `CarController.update` (car.js lines
614–653): cooldown decay, progress integration, collision test of the
candidate position, and either the position commit or the blocked branch
(forced `checkForTurn` when the cooldown has elapsed, cooldown reset to 1.0,
progress decremented back).  The returned `Bool` records whether the forced
turn evaluation ran (true only in the blocked branch with elapsed cooldown).
The mid-segment turn window (lines 656–662) and expiry (lines 664–673) are
modelled separately. -/
def carAdvance (streets : List Lane) (intersections : List Crossing)
    (buildings : List Building) (carRadius dt : ℚ) (doTurn : Bool) (pick : ℕ)
    (c : CarData) : CarData × Bool :=
  let c := if c.turnCooldown > 0 then { c with turnCooldown := c.turnCooldown - dt } else c
  let cand := carCandidate dt c
  let c := { c with progress := c.progress + c.speed * dt * 0.01 }
  if carCheckCollision buildings carRadius cand then
    let (c1, forced) :=
      if c.turnCooldown ≤ 0 then
        ({ checkForTurn streets intersections doTurn pick c with turnCooldown := 1 }, true)
      else (c, false)
    ({ c1 with progress := c1.progress - c1.speed * dt * 0.01 }, forced)
  else
    ({ c with posX := cand.x, posZ := cand.z }, false)

/-- The per-NPC mutable state carried in `npcGroup.userData` (npc.js lines
342–356) together with the group's scene position.  Animation bookkeeping
(`mixer`, `actions`, `currentAction`, `lastPos`) is omitted. -/
structure NpcData where
  currentStreet : Lane
  progress : ℚ
  posX : ℚ
  posZ : ℚ
  speed : ℚ
  turnCooldown : ℚ
  isAtIntersection : Bool
  mode : String
deriving DecidableEq

/-- The legacy street-walking advancement branch of
`NonPlayableCharacter.update` (npc.js lines 531–542): cooldown decay,
`progress += speed * delta * 0.01`, and an unconditional position commit to
the interpolated point (no collision guard on this path).  The subsequent
mid-segment turn window (lines 545–551) is not part of the advancement. -/
def npcLegacyAdvance (dt : ℚ) (n : NpcData) : NpcData :=
  let n := if n.turnCooldown > 0 then { n with turnCooldown := n.turnCooldown - dt } else n
  let p := n.progress + n.speed * dt * 0.01
  { n with progress := p,
           posX := n.currentStreet.start.x + (n.currentStreet.«end».x - n.currentStreet.start.x) * p,
           posZ := n.currentStreet.start.z + (n.currentStreet.«end».z - n.currentStreet.start.z) * p }

/-- JavaScript `Set.add`: append the id unless it is already present. -/
def insertId (id : String) (s : List String) : List String :=
  if s.contains id then s else s ++ [id]

/-- The bounded rejection-sampling loop shared by `spawnCar` (car.js lines
490–522, `attempts < 10`) and `spawnNPC` (npc.js lines 252–313,
`attempts < 20`): draw candidate number `i`, accept the first valid one,
give up (`none`) when the attempt budget is exhausted. -/
def trySamples {α : Type} (cand : ℕ → α) (valid : α → Bool) : ℕ → ℕ → Option α
  | 0, _ => none
  | n + 1, i => if valid (cand i) then some (cand i) else trySamples cand valid n (i + 1)

/-- Validity of a sampled spawn progress value for a car (car.js lines
497–519): the interpolated test position must be at distance ≥ `minSpacing`
(8) from every existing car (`Math.sqrt d2 < 8` modelled as `d2 < 64`) and
must not collide with a building. -/
def carSpawnValid (street : Lane) (cars : List CarData) (buildings : List Building)
    (carRadius : ℚ) (progress : ℚ) : Bool :=
  let testX := street.start.x + (street.«end».x - street.start.x) * progress
  let testZ := street.start.z + (street.«end».z - street.start.z) * progress
  (cars.all fun ec =>
    !decide ((ec.posX - testX) * (ec.posX - testX) + (ec.posZ - testZ) * (ec.posZ - testZ) < 64)) &&
  !carCheckCollision buildings carRadius ⟨testX, testZ⟩

/-- `CarController.spawnCar()` (car.js lines 463–603, state-relevant parts):
prefer a lane whose id is not in `spawnedStreetIds` (clearing the set when
all lanes are used), record the chosen lane id, then rejection-sample a
progress value in the first 30% of the lane (`Math.random() * 0.3`, at most
10 attempts).  On sampling failure the car list is unchanged (soft failure);
on success the car is appended.  `laneChoice` and `samples`/`speedRand`
stand for the `Math.random()` draws.  The mesh cloning, texture and wheel
bookkeeping are visual-only and omitted. -/
def spawnCar (streets : List Lane) (buildings : List Building) (carRadius : ℚ)
    (laneChoice : ℕ) (samples : ℕ → ℚ) (speedRand : ℚ)
    (cars : List CarData) (spawned : List String) : List CarData × List String :=
  if streets.isEmpty then (cars, spawned)
  else
    let avail0 := streets.filter fun s => !spawned.contains s.id
    let avail1 := if avail0.isEmpty then streets else avail0
    let spawned1 := if avail0.isEmpty then ([] : List String) else spawned
    match avail1 with
    | [] => (cars, spawned1)
    | st0 :: _ =>
      let street := avail1.getD (laneChoice % avail1.length) st0
      let spawned2 := insertId street.id spawned1
      match trySamples (fun i => samples i * 0.3)
          (carSpawnValid street cars buildings carRadius) 10 0 with
      | none => (cars, spawned2)
      | some progress =>
        let px := street.start.x + (street.«end».x - street.start.x) * progress
        let pz := street.start.z + (street.«end».z - street.start.z) * progress
        (cars ++ [{ currentStreet := street, progress := progress, posX := px, posZ := pz,
                    speed := 3 * (0.8 + speedRand * 0.4), turnCooldown := 0,
                    isAtIntersection := false }], spawned2)

/-- `NonPlayableCharacter.getNearbyStreets(center, radius)` (npc.js lines
188–201): streets whose fixed cross-axis coordinate is within `radius` of
the center, falling back to all streets when none qualifies (or when no
center is supplied). -/
def getNearbyStreets (streets : List Lane) (center : Option Pt) (radius : ℚ) : List Lane :=
  match center with
  | none => streets
  | some cp =>
    let nearby := streets.filter fun street =>
      if street.direction = "horizontal" then |street.start.z - cp.z| ≤ radius
      else |street.start.x - cp.x| ≤ radius
    if nearby.length > 0 then nearby else streets

/-- The pedestrian population state shared by spawn/turn/expiry
(npc.js lines 9, 26, 28). -/
structure NpcState where
  npcs : List NpcData
  usedSpawnStreetIds : List String
  occupiedStreetIds : List String
deriving DecidableEq

/-- Candidate spawn position number `i` for an NPC on `street` (npc.js lines
263–282): sampled along the street inside the `spawnRadius = 40` window
around the player when a player position is supplied
(`target = min + Math.random() * Math.max(1, max - min)`). -/
def npcSpawnCand (street : Lane) (playerPos : Option Pt) (samples : ℕ → ℚ) (i : ℕ) : Pt :=
  if street.direction = "horizontal" then
    let minX := match playerPos with
      | some pp => max street.start.x (pp.x - 40)
      | none => street.start.x
    let maxX := match playerPos with
      | some pp => min street.«end».x (pp.x + 40)
      | none => street.«end».x
    ⟨minX + samples i * max 1 (maxX - minX), street.start.z⟩
  else
    let minZ := match playerPos with
      | some pp => max street.start.z (pp.z - 40)
      | none => street.start.z
    let maxZ := match playerPos with
      | some pp => min street.«end».z (pp.z + 40)
      | none => street.«end».z
    ⟨street.start.x, minZ + samples i * max 1 (maxZ - minZ)⟩

/-- Validity of a sampled NPC spawn position (npc.js lines 284–311):
distance ≥ `minSpawnSpacing` (5) from every existing NPC, distance ≥
`spawnAvoidPlayerRadius` (10) from the player when present, and no building
collision (via `BaseCharacter.checkCollision` with `characterRadius = 2`). -/
def npcSpawnValid (npcs : List NpcData) (playerPos : Option Pt) (buildings : List Building)
    (pos : Pt) : Bool :=
  (npcs.all fun e =>
    !decide ((e.posX - pos.x) * (e.posX - pos.x) + (e.posZ - pos.z) * (e.posZ - pos.z) < 25)) &&
  (match playerPos with
   | some pp =>
     !decide ((pp.x - pos.x) * (pp.x - pos.x) + (pp.z - pos.z) * (pp.z - pos.z) < 100)
   | none => true) &&
  !charCheckCollision buildings 2 pos

/-- `NonPlayableCharacter.spawnNPC(index)` (npc.js lines 211–370,
state-relevant parts): choose among streets near the player, preferring
never-used and unoccupied lanes, relaxing to unoccupied lanes, then to any
nearby lane (clearing `usedSpawnStreetIds`); record the chosen lane id in
`usedSpawnStreetIds`; rejection-sample a position (at most 20 attempts).
On failure the population and `occupiedStreetIds` are unchanged; on success
the NPC is appended (idle, speed 0, progress derived from the sampled
position, `(len || 1)` guarding division by zero) and the lane id is added
to `occupiedStreetIds`. -/
def spawnNPC (streets : List Lane) (buildings : List Building) (playerPos : Option Pt)
    (laneChoice : ℕ) (samples : ℕ → ℚ) (st : NpcState) : NpcState :=
  if streets.isEmpty then st
  else
    let candidateStreets := getNearbyStreets streets playerPos 40
    let a1 := candidateStreets.filter fun s =>
      !st.usedSpawnStreetIds.contains s.id && !st.occupiedStreetIds.contains s.id
    let a2 := if a1.isEmpty then
        candidateStreets.filter fun s => !st.occupiedStreetIds.contains s.id
      else a1
    let avail := if a2.isEmpty then candidateStreets else a2
    let used0 := if a2.isEmpty then ([] : List String) else st.usedSpawnStreetIds
    match avail with
    | [] => st
    | st0 :: _ =>
      let street := avail.getD (laneChoice % avail.length) st0
      let used1 := insertId street.id used0
      match trySamples (npcSpawnCand street playerPos samples)
          (npcSpawnValid st.npcs playerPos buildings) 20 0 with
      | none => { st with usedSpawnStreetIds := used1 }
      | some pos =>
        let lenX := street.«end».x - street.start.x
        let lenZ := street.«end».z - street.start.z
        let progress := if street.direction = "horizontal" then
            (pos.x - street.start.x) / (if lenX = 0 then 1 else lenX)
          else
            (pos.z - street.start.z) / (if lenZ = 0 then 1 else lenZ)
        { npcs := st.npcs ++ [{ currentStreet := street, progress := progress,
                                posX := pos.x, posZ := pos.z, speed := 0,
                                turnCooldown := 0, isAtIntersection := false,
                                mode := "idle" }],
          usedSpawnStreetIds := used1,
          occupiedStreetIds := insertId street.id st.occupiedStreetIds }

/-- The expiry branch of `CarController.update` for the car at index `i`
(car.js lines 664–673): when `progress > 1.2` the car is removed and, if the
population is below `maxCars`, one `spawnCar` attempt runs immediately.
Nothing is ever deleted from `spawnedStreetIds` here. -/
def carExpiryStep (streets : List Lane) (buildings : List Building) (carRadius : ℚ)
    (maxCars : ℕ) (laneChoice : ℕ) (samples : ℕ → ℚ) (speedRand : ℚ)
    (cars : List CarData) (spawned : List String) (i : ℕ) : List CarData × List String :=
  match cars.get? i with
  | none => (cars, spawned)
  | some c =>
    if c.progress > 1.2 then
      let cars1 := cars.eraseIdx i
      if cars1.length < maxCars then
        spawnCar streets buildings carRadius laneChoice samples speedRand cars1 spawned
      else (cars1, spawned)
    else (cars, spawned)

/-- The expiry branch of `NonPlayableCharacter.update` for the NPC at index
`i` (npc.js lines 569–577): when `progress > 1.2` the NPC's lane id is
deleted from `occupiedStreetIds`, the NPC is removed and, if the population
is below `count`, one `spawnNPC` attempt runs immediately. -/
def npcExpiryStep (streets : List Lane) (buildings : List Building) (playerPos : Option Pt)
    (count : ℕ) (laneChoice : ℕ) (samples : ℕ → ℚ) (st : NpcState) (i : ℕ) : NpcState :=
  match st.npcs.get? i with
  | none => st
  | some n =>
    if n.progress > 1.2 then
      let occupied1 := st.occupiedStreetIds.filter fun id => id != n.currentStreet.id
      let npcs1 := st.npcs.eraseIdx i
      let st1 : NpcState := ⟨npcs1, st.usedSpawnStreetIds, occupied1⟩
      if npcs1.length < count then
        spawnNPC streets buildings playerPos laneChoice samples st1
      else st1
    else st

/-- JavaScript `String.prototype.includes`: substring containment. -/
def jsIncludes (s sub : String) : Bool := decide (sub.data <:+: s.data)

/-- JavaScript `Math.atan2(y, x)` for finite arguments (the standard
convention; the navigation code only applies it to axis-aligned direction
vectors). -/
noncomputable def atan2 (y x : ℝ) : ℝ :=
  if 0 < x then Real.arctan (y / x)
  else if x < 0 then
    (if 0 ≤ y then Real.arctan (y / x) + Real.pi else Real.arctan (y / x) - Real.pi)
  else
    (if 0 < y then Real.pi / 2 else if y < 0 then -(Real.pi / 2) else 0)

/-- The angle of a lane's start→end movement vector, in the code's own
convention `Math.atan2(dirX, dirZ)` (car.js lines 562–564 and 733–735). -/
noncomputable def laneAngle (l : Lane) : ℝ :=
  atan2 (((l.«end».x - l.start.x : ℚ) : ℝ)) (((l.«end».z - l.start.z : ℚ) : ℝ))

/-- The heading assigned by `CarController.performTurn` (car.js lines
733–735): `Math.atan2(ndx, ndz) + this.carHeadingOffset` with
`carHeadingOffset = Math.PI` (car.js line 22). -/
noncomputable def carTurnRotY (l : Lane) : ℝ :=
  atan2 (((l.«end».x - l.start.x : ℚ) : ℝ)) (((l.«end».z - l.start.z : ℚ) : ℝ)) + Real.pi

/-- The heading assigned by `NonPlayableCharacter.performTurn` (npc.js lines
620–628): a constant chosen from the lane tag — `±π/2` for horizontal lanes
by `lane.includes("right")`, `π` or `0` for vertical lanes by
`lane.includes("down")`. -/
noncomputable def npcTurnRotY (l : Lane) : ℝ :=
  if l.direction = "horizontal" then
    (if jsIncludes l.lane "right" then Real.pi / 2 else -(Real.pi / 2))
  else
    (if jsIncludes l.lane "down" then Real.pi else 0)

/-- `NonPlayableCharacter.performTurn(npc, userData, intersection)` (npc.js
lines 596–628): same candidate filter as the car variant, but candidates not
currently in `occupiedStreetIds` are preferred (falling back to all
candidates), and the occupancy set releases the old lane id and claims the
new one.  Returns the updated NPC state and occupancy set. -/
def npcPerformTurn (streets : List Lane) (occupied : List String) (itx : Crossing)
    (pick : ℕ) (n : NpcData) : NpcData × List String :=
  let candidates := streets.filter fun s =>
    itx.connectedStreets.contains s.id && s.id != n.currentStreet.id &&
      isValidTurn n.currentStreet s
  match candidates with
  | [] => (n, occupied)
  | c0 :: _ =>
    let options0 := candidates.filter fun s => !occupied.contains s.id
    let options := if options0.isEmpty then candidates else options0
    let newStreet := options.getD (pick % options.length) c0
    let occupied1 := insertId newStreet.id (occupied.filter fun id => id != n.currentStreet.id)
    ({ n with currentStreet := newStreet, progress := 0, turnCooldown := 2,
              posX := newStreet.start.x, posZ := newStreet.start.z }, occupied1)

/-- The generated vehicle lane `h_1_right` (row 1, forward direction),
spelled out for use in concrete scenarios; see `hLane1_mem`. -/
def hLane1 : Lane :=
  ⟨"h_1_right", ⟨-300, -285.6⟩, ⟨300, -285.6⟩, "horizontal", "right"⟩

/-- The generated vehicle lane `v_1_down` (column 1, forward direction). -/
def vLane1 : Lane :=
  ⟨"v_1_down", ⟨-285.6, -300⟩, ⟨-285.6, 300⟩, "vertical", "down"⟩

/-- The generated sidewalk lane `h_1_right_sw`. -/
def hSw1 : Lane :=
  ⟨"h_1_right_sw", ⟨-300, -289.8⟩, ⟨300, -289.8⟩, "horizontal", "right_sw"⟩

/-- The generated sidewalk lane `v_1_down_sw`. -/
def vSw1 : Lane :=
  ⟨"v_1_down_sw", ⟨-289.8, -300⟩, ⟨-289.8, 300⟩, "vertical", "down_sw"⟩

/-- The spec's scenario lane: `start = (0,0)`, `end = (100,0)`. -/
def testLane : Lane := ⟨"t", ⟨0, 0⟩, ⟨100, 0⟩, "horizontal", "right"⟩

/-- A car on `testLane` at the origin, speed 3, no cooldown. -/
def carW : CarData := ⟨testLane, 0, 0, 0, 3, 0, false⟩

/-- A car on `testLane` at the origin, speed 3, cooldown still running. -/
def carW2 : CarData := ⟨testLane, 0, 0, 0, 3, 5, false⟩

/-- A car on `h_1_right` just past the first intersection's x coordinate. -/
def carBlocked : CarData := ⟨hLane1, 0.025, -285, -285.6, 3, 0, false⟩

/-- A building sitting exactly on `carBlocked`'s next candidate position. -/
def blockBuilding : Building := ⟨-267, -285.6, 2, 2⟩

/-- A building sitting on `carW2`'s next candidate position `(3, 0)`. -/
def wBuilding : Building := ⟨3, 0, 2, 2⟩

/-- A sample stream whose first ten draws are 0 and whose later draws are 1. -/
def budgetSamples : ℕ → ℚ := fun i => if i < 10 then 0 else 1

/-- The generated vehicle lane `h_1_left` (row 1, reverse direction: its
stored start x is greater than its end x). -/
def hLane1L : Lane :=
  ⟨"h_1_left", ⟨300, -284.4⟩, ⟨-300, -284.4⟩, "horizontal", "left"⟩

/-- The first generated vehicle intersection (grid cell x = 1, z = 1)
together with its computed connected-street ids. -/
def itx1 : Crossing := ⟨-285, -285, ["h_1_right", "v_1_down"]⟩

/-! ### Helper lemmas -/

/-- `getD` with an in-range index returns a member of the list. -/
theorem getD_mem {α : Type} (l : List α) (i : ℕ) (d : α) (h : i < l.length) :
    l.getD i d ∈ l := by
  rw [List.getD_eq_getElem?_getD, List.getElem?_eq_getElem h]
  exact List.getElem_mem h

/-- `insertId` keeps every existing member. -/
theorem insertId_mem (id : String) (s : List String) (x : String) (hx : x ∈ s) :
    x ∈ insertId id s := by
  unfold insertId
  split
  · exact hx
  · exact List.mem_append_left _ hx

/-- `performTurn` either leaves the car unchanged (no candidate street) or
switches it to a candidate street: a member of `streets` whose id is in the
intersection's connected set, differs from the current lane id, and passes
`isValidTurn`. -/
theorem performTurn_cases (streets : List Lane) (itx : Crossing) (pick : ℕ) (c : CarData) :
    performTurn streets itx pick c = c ∨
    ∃ ns ∈ streets, ns.id ∈ itx.connectedStreets ∧ ns.id ≠ c.currentStreet.id ∧
      isValidTurn c.currentStreet ns = true ∧
      performTurn streets itx pick c =
        { c with currentStreet := ns, progress := 0, turnCooldown := 2,
                 posX := ns.start.x, posZ := ns.start.z } := by
  unfold performTurn
  rcases hav : streets.filter (fun street =>
      itx.connectedStreets.contains street.id && street.id != c.currentStreet.id &&
        isValidTurn c.currentStreet street) with _ | ⟨st0, rest⟩
  · rw [hav]
    exact Or.inl rfl
  · rw [hav]
    right
    have hlen : 0 < (st0 :: rest).length := Nat.succ_pos _
    have hmem0 : (st0 :: rest).getD (pick % (st0 :: rest).length) st0 ∈ st0 :: rest :=
      getD_mem _ _ _ (Nat.mod_lt _ hlen)
    have hmemf : (st0 :: rest).getD (pick % (st0 :: rest).length) st0 ∈
        streets.filter (fun street =>
          itx.connectedStreets.contains street.id && street.id != c.currentStreet.id &&
            isValidTurn c.currentStreet street) := hav ▸ hmem0
    have hmem := List.mem_filter.mp hmemf
    refine ⟨(st0 :: rest).getD (pick % (st0 :: rest).length) st0, hmem.1, ?_, ?_, ?_, rfl⟩
    · have h1 := hmem.2
      simp only [Bool.and_eq_true] at h1
      simpa using h1.1.1
    · have h1 := hmem.2
      simp only [Bool.and_eq_true] at h1
      simpa using h1.1.2
    · have h1 := hmem.2
      simp only [Bool.and_eq_true] at h1
      exact h1.2

/-- `npcPerformTurn` either leaves the NPC unchanged (no candidate street) or
switches it to a candidate street (member of `streets`, connected to the
intersection, different id, valid turn). -/
theorem npcPerformTurn_cases (streets : List Lane) (occupied : List String)
    (itx : Crossing) (pick : ℕ) (n : NpcData) :
    (npcPerformTurn streets occupied itx pick n).1 = n ∨
    ∃ ns ∈ streets, ns.id ∈ itx.connectedStreets ∧ ns.id ≠ n.currentStreet.id ∧
      isValidTurn n.currentStreet ns = true ∧
      (npcPerformTurn streets occupied itx pick n).1.currentStreet = ns := by
  unfold npcPerformTurn
  rcases hav : streets.filter (fun s =>
      itx.connectedStreets.contains s.id && s.id != n.currentStreet.id &&
        isValidTurn n.currentStreet s) with _ | ⟨c0, rest⟩
  · rw [hav]
    exact Or.inl rfl
  · rw [hav]
    right
    dsimp only
    by_cases hE : ((c0 :: rest).filter (fun s => !occupied.contains s.id)).isEmpty = true
    · rw [if_pos hE]
      have hmem0 : (c0 :: rest).getD (pick % (c0 :: rest).length) c0 ∈ c0 :: rest :=
        getD_mem _ _ _ (Nat.mod_lt _ (Nat.succ_pos _))
      have hmemf : (c0 :: rest).getD (pick % (c0 :: rest).length) c0 ∈
          streets.filter (fun s =>
            itx.connectedStreets.contains s.id && s.id != n.currentStreet.id &&
              isValidTurn n.currentStreet s) := hav ▸ hmem0
      have hmem := List.mem_filter.mp hmemf
      refine ⟨(c0 :: rest).getD (pick % (c0 :: rest).length) c0, hmem.1, ?_, ?_, ?_, rfl⟩
      · have h1 := hmem.2
        simp only [Bool.and_eq_true] at h1
        simpa using h1.1.1
      · have h1 := hmem.2
        simp only [Bool.and_eq_true] at h1
        simpa using h1.1.2
      · have h1 := hmem.2
        simp only [Bool.and_eq_true] at h1
        exact h1.2
    · rw [if_neg hE]
      have hne : (c0 :: rest).filter (fun s => !occupied.contains s.id) ≠ [] := by
        intro h
        rw [h] at hE
        exact hE rfl
      have hlen : 0 < ((c0 :: rest).filter (fun s => !occupied.contains s.id)).length :=
        List.length_pos.mpr hne
      have hmem0 :
          ((c0 :: rest).filter (fun s => !occupied.contains s.id)).getD
            (pick % ((c0 :: rest).filter (fun s => !occupied.contains s.id)).length) c0 ∈
          (c0 :: rest).filter (fun s => !occupied.contains s.id) :=
        getD_mem _ _ _ (Nat.mod_lt _ hlen)
      have hmemc := List.mem_of_mem_filter hmem0
      have hmemf :
          ((c0 :: rest).filter (fun s => !occupied.contains s.id)).getD
            (pick % ((c0 :: rest).filter (fun s => !occupied.contains s.id)).length) c0 ∈
          streets.filter (fun s =>
            itx.connectedStreets.contains s.id && s.id != n.currentStreet.id &&
              isValidTurn n.currentStreet s) := hav ▸ hmemc
      have hmem := List.mem_filter.mp hmemf
      refine ⟨_, hmem.1, ?_, ?_, ?_, rfl⟩
      · have h1 := hmem.2
        simp only [Bool.and_eq_true] at h1
        simpa using h1.1.1
      · have h1 := hmem.2
        simp only [Bool.and_eq_true] at h1
        simpa using h1.1.2
      · have h1 := hmem.2
        simp only [Bool.and_eq_true] at h1
        exact h1.2

/-! ### Claim C1 -/

/-- C1: with gridSize 40, blockSize 15, laneWidth 1.2 the generated vehicle
network has exactly 52 lanes (two per each of the 13 rows and 13 columns
congruent to 1 mod 3) and exactly 169 = 13 × 13 intersections. -/
theorem laneGraph_counts :
    carStreetsList.length = 52 ∧
    carIntersectionsList.length = 169 ∧
    ((List.range 40).filter fun i => i % 3 == 1).length = 13 ∧
    carStreetsList.length =
      2 * ((List.range 40).filter fun i => i % 3 == 1).length +
      2 * ((List.range 40).filter fun i => i % 3 == 1).length ∧
    carIntersectionsList.length =
      ((List.range 40).filter fun i => i % 3 == 1).length *
      ((List.range 40).filter fun i => i % 3 == 1).length := by
  decide

/-! ### Claim C2 -/

/-- C2: across the vehicle lane set and the pedestrian sidewalk lane set, all
lane ids are pairwise distinct (in particular no vehicle lane id equals any
pedestrian lane id). -/
theorem laneIds_nodup :
    ((carStreetsList ++ npcStreetsList).map Lane.id).Nodup := by
  decide

/-! ### Claim C5 -/

/-- C5: `isValidTurn` returns true for lanes of equal `direction` iff their
lane tags differ, and always returns true for differing directions. -/
theorem validTurn_rule :
    ∀ f t : Lane,
      (f.direction = t.direction → (isValidTurn f t = true ↔ f.lane ≠ t.lane)) ∧
      (f.direction ≠ t.direction → isValidTurn f t = true) := by
  intro f t
  constructor <;> intro h <;> simp [isValidTurn, h]

/-- Witness for `validTurn_rule` at concrete lanes: a cross-direction turn
from `h_1_right` to `v_1_down` is valid, and a same-direction same-tag pair
is not. -/
theorem validTurn_rule_witness :
    isValidTurn hLane1 vLane1 = true ∧ ¬ isValidTurn hLane1 hLane1 = true := by
  refine ⟨(validTurn_rule hLane1 vLane1).2 (by decide), ?_⟩
  have h := (validTurn_rule hLane1 hLane1).1 rfl
  simp [h]

/-! ### Claim C6 -/

/-- C6: at the claim's own scenario — obstacle `{x:0, z:0, width:10,
depth:10}`, radius 2, position `(6,0)` — the pedestrian-side
`BaseCharacter.checkCollision` returns `false` (its falsy guard
`!building.x || !building.z` skips every building centred on a zero
coordinate), although the claimed AABB predicate holds there and the car-side
implementation agrees with the predicate (collision at `(6,0)`, none at
`(8,0)`). -/
theorem collision_zero_origin_divergence :
    charCheckCollision [⟨0, 0, 10, 10⟩] 2 ⟨6, 0⟩ = false ∧
    specCollides [⟨0, 0, 10, 10⟩] 2 ⟨6, 0⟩ ∧
    carCheckCollision [⟨0, 0, 10, 10⟩] 2 ⟨6, 0⟩ = true ∧
    carCheckCollision [⟨0, 0, 10, 10⟩] 2 ⟨8, 0⟩ = false := by
  refine ⟨by decide, ⟨⟨0, 0, 10, 10⟩, by decide, by decide⟩, by decide, by decide⟩

/-- `checkForTurn` either keeps the car's lane, position, progress and speed
(possibly toggling only the debounce flag) or performs a turn onto a lane
with a different id (speed still preserved). -/
theorem checkForTurn_pos (streets : List Lane) (intersections : List Crossing)
    (doTurn : Bool) (pick : ℕ) (c : CarData) :
    ((checkForTurn streets intersections doTurn pick c).currentStreet = c.currentStreet ∧
     (checkForTurn streets intersections doTurn pick c).posX = c.posX ∧
     (checkForTurn streets intersections doTurn pick c).posZ = c.posZ ∧
     (checkForTurn streets intersections doTurn pick c).progress = c.progress ∧
     (checkForTurn streets intersections doTurn pick c).speed = c.speed) ∨
    ((checkForTurn streets intersections doTurn pick c).currentStreet.id ≠ c.currentStreet.id ∧
     (checkForTurn streets intersections doTurn pick c).speed = c.speed) := by
  unfold checkForTurn
  rcases hfind : intersections.find? (fun itx =>
      (itx.x - c.posX) * (itx.x - c.posX) + (itx.z - c.posZ) * (itx.z - c.posZ) < 64)
    with _ | itx
  · rw [hfind]
    exact Or.inl ⟨rfl, rfl, rfl, rfl, rfl⟩
  · rw [hfind]
    dsimp only
    by_cases hat : c.isAtIntersection
    · simp only [hat, Bool.not_true, Bool.false_eq_true, if_false]
      left
      simp
    · have hat' : c.isAtIntersection = false := Bool.eq_false_iff.mpr hat
      simp only [hat', Bool.not_false, if_true]
      cases doTurn with
      | false =>
        simp only [Bool.false_eq_true, if_false]
        left
        simp
      | true =>
        simp only [if_true]
        rcases performTurn_cases streets itx pick { c with isAtIntersection := true }
          with he | ⟨ns, _, _, hne, _, heq⟩
        · rw [he]
          exact Or.inl ⟨rfl, rfl, rfl, rfl, rfl⟩
        · rw [heq]
          exact Or.inr ⟨hne, rfl⟩

/-! ### Claim C3 -/

/-- C3: an unblocked advancement tick adds `speed * deltaTime * 0.01` to the
progress and moves the agent to the linear interpolation of the lane's start
and end at the new progress value — for cars (when the candidate position
passes the collision guard) and unconditionally on the NPC street-walking
path. -/
theorem advance_formula :
    (∀ streets intersections buildings (carRadius dt : ℚ) doTurn pick (c : CarData),
       carCheckCollision buildings carRadius (carCandidate dt c) = false →
       (carAdvance streets intersections buildings carRadius dt doTurn pick c).1.progress
           = c.progress + c.speed * dt * 0.01 ∧
       (carAdvance streets intersections buildings carRadius dt doTurn pick c).1.posX
           = c.currentStreet.start.x + (c.currentStreet.«end».x - c.currentStreet.start.x) *
               (c.progress + c.speed * dt * 0.01) ∧
       (carAdvance streets intersections buildings carRadius dt doTurn pick c).1.posZ
           = c.currentStreet.start.z + (c.currentStreet.«end».z - c.currentStreet.start.z) *
               (c.progress + c.speed * dt * 0.01) ∧
       (carAdvance streets intersections buildings carRadius dt doTurn pick c).2 = false) ∧
    (∀ (dt : ℚ) (n : NpcData),
       (npcLegacyAdvance dt n).progress = n.progress + n.speed * dt * 0.01 ∧
       (npcLegacyAdvance dt n).posX
           = n.currentStreet.start.x + (n.currentStreet.«end».x - n.currentStreet.start.x) *
               (n.progress + n.speed * dt * 0.01) ∧
       (npcLegacyAdvance dt n).posZ
           = n.currentStreet.start.z + (n.currentStreet.«end».z - n.currentStreet.start.z) *
               (n.progress + n.speed * dt * 0.01)) := by
  constructor
  · intro streets intersections buildings carRadius dt doTurn pick c h
    unfold carAdvance
    have hcand : carCandidate dt
        (if c.turnCooldown > 0 then { c with turnCooldown := c.turnCooldown - dt } else c)
        = carCandidate dt c := by
      split <;> rfl
    dsimp only
    rw [hcand, h]
    simp only [Bool.false_eq_true, if_false]
    split <;> simp [carCandidate]
  · intro dt n
    unfold npcLegacyAdvance
    split <;> simp

/-- Witness for `advance_formula` at the spec's scenario: lane
`(0,0) → (100,0)`, speed 3, `deltaTime = 1`, no obstacles — progress becomes
0.03 and the position `(3, 0)`. -/
theorem advance_formula_witness :
    carCheckCollision [] 1.2 (carCandidate 1 carW) = false ∧
    (carAdvance [] [] [] 1.2 1 false 0 carW).1.progress = 0.03 ∧
    (carAdvance [] [] [] 1.2 1 false 0 carW).1.posX = 3 ∧
    (carAdvance [] [] [] 1.2 1 false 0 carW).1.posZ = 0 := by
  have h : carCheckCollision [] 1.2 (carCandidate 1 carW) = false := by decide
  have hmain := advance_formula.1 [] [] [] 1.2 1 false 0 carW h
  refine ⟨h, ?_, ?_, ?_⟩
  · rw [hmain.1]
    decide
  · rw [hmain.2.1]
    decide
  · rw [hmain.2.2.1]
    decide

/-! ### Claim C4 -/

/-- C4 counterexample: a car on `h_1_right` sitting 0.6 units from the
generated intersection `(-285, -285)`, cooldown elapsed, whose candidate
position is blocked by a building.  The forced turn evaluation performs a
turn (random draw says turn, `v_1_down` is available), so the tick moves the
car to the new lane's start and leaves progress at a value different from
its pre-tick value — refuting "the agent's position is left unchanged for
the tick" and "progress is rolled back to its pre-tick value". -/
theorem blockedAdvance_moves_on_turn :
    carCheckCollision [blockBuilding] 1.2 (carCandidate 1 carBlocked) = true ∧
    (carAdvance carStreetsList carIntersectionsList [blockBuilding] 1.2 1 true 0
        carBlocked).1.posX ≠ carBlocked.posX ∧
    (carAdvance carStreetsList carIntersectionsList [blockBuilding] 1.2 1 true 0
        carBlocked).1.progress ≠ carBlocked.progress := by
  refine ⟨by decide, by decide, by decide⟩

/-- C4 (amended): when the candidate position collides, the turn evaluation
is forced exactly when the (decayed) cooldown has elapsed, and — provided the
forced evaluation does not actually perform a turn — the position is left
unchanged and the progress ends the tick at its pre-tick value. -/
theorem blockedAdvance_atomic_unless_turn :
    ∀ streets intersections buildings (carRadius dt : ℚ) doTurn pick (c : CarData),
      carCheckCollision buildings carRadius (carCandidate dt c) = true →
      ((carAdvance streets intersections buildings carRadius dt doTurn pick c).2 = true ↔
        (if c.turnCooldown > 0 then c.turnCooldown - dt else c.turnCooldown) ≤ 0) ∧
      ((carAdvance streets intersections buildings carRadius dt doTurn pick c).1.currentStreet
          = c.currentStreet →
        (carAdvance streets intersections buildings carRadius dt doTurn pick c).1.posX = c.posX ∧
        (carAdvance streets intersections buildings carRadius dt doTurn pick c).1.posZ = c.posZ ∧
        (carAdvance streets intersections buildings carRadius dt doTurn pick c).1.progress
          = c.progress) := by
  intro streets intersections buildings carRadius dt doTurn pick c h
  unfold carAdvance
  have hcand : carCandidate dt
      (if c.turnCooldown > 0 then { c with turnCooldown := c.turnCooldown - dt } else c)
      = carCandidate dt c := by
    split <;> rfl
  dsimp only
  rw [hcand, h]
  simp only [eq_self_iff_true, if_true]
  by_cases hgt : 0 < c.turnCooldown
  · simp only [if_pos hgt]
    by_cases hle : c.turnCooldown - dt ≤ 0
    · simp only [if_pos hle]
      rcases checkForTurn_pos streets intersections doTurn pick
          ⟨c.currentStreet, c.progress + c.speed * dt * 0.01, c.posX, c.posZ, c.speed,
            c.turnCooldown - dt, c.isAtIntersection⟩
        with ⟨h1, h2, h3, h4, h5⟩ | ⟨hne, h5⟩
      · dsimp only at h1 h2 h3 h4 h5
        rw [h1, h2, h3, h4, h5]
        refine ⟨by simp [hle], fun _ => ⟨rfl, rfl, by ring⟩⟩
      · dsimp only at hne h5
        refine ⟨by simp [hle], fun hstreet => absurd (congrArg Lane.id hstreet) hne⟩
    · simp only [if_neg hle]
      refine ⟨by simp [hle], fun _ => ⟨by simp, by simp, by ring⟩⟩
  · simp only [if_neg hgt]
    by_cases hle : c.turnCooldown ≤ 0
    · simp only [if_pos hle]
      rcases checkForTurn_pos streets intersections doTurn pick
          ⟨c.currentStreet, c.progress + c.speed * dt * 0.01, c.posX, c.posZ, c.speed,
            c.turnCooldown, c.isAtIntersection⟩
        with ⟨h1, h2, h3, h4, h5⟩ | ⟨hne, h5⟩
      · dsimp only at h1 h2 h3 h4 h5
        rw [h1, h2, h3, h4, h5]
        refine ⟨by simp [hle], fun _ => ⟨rfl, rfl, by ring⟩⟩
      · dsimp only at hne h5
        refine ⟨by simp [hle], fun hstreet => absurd (congrArg Lane.id hstreet) hne⟩
    · simp only [if_neg hle]
      refine ⟨by simp [hle], fun _ => ⟨by simp, by simp, by ring⟩⟩

/-- Witness for `blockedAdvance_atomic_unless_turn`: a blocked car whose
cooldown is still running — no forced evaluation, position unchanged,
progress back at its pre-tick value. -/
theorem blockedAdvance_atomic_witness :
    carCheckCollision [wBuilding] 1.2 (carCandidate 1 carW2) = true ∧
    ((carAdvance [] [] [wBuilding] 1.2 1 true 0 carW2).2 = true ↔
      (if carW2.turnCooldown > 0 then carW2.turnCooldown - 1 else carW2.turnCooldown) ≤ 0) ∧
    ((carAdvance [] [] [wBuilding] 1.2 1 true 0 carW2).1.posX = carW2.posX ∧
     (carAdvance [] [] [wBuilding] 1.2 1 true 0 carW2).1.posZ = carW2.posZ ∧
     (carAdvance [] [] [wBuilding] 1.2 1 true 0 carW2).1.progress = carW2.progress) := by
  have h : carCheckCollision [wBuilding] 1.2 (carCandidate 1 carW2) = true := by decide
  have hmain := blockedAdvance_atomic_unless_turn [] [] [wBuilding] 1.2 1 true 0 carW2 h
  exact ⟨h, hmain.1, hmain.2 (by decide)⟩

/-- The bounded sampler returns `none` iff none of its `n` candidates is
valid. -/
theorem trySamples_eq_none {α : Type} (cand : ℕ → α) (valid : α → Bool) :
    ∀ (n i : ℕ), trySamples cand valid n i = none ↔ ∀ j < n, valid (cand (i + j)) = false := by
  intro n
  induction n with
  | zero =>
    intro i
    simp [trySamples]
  | succ m ih =>
    intro i
    constructor
    · intro h j hj
      by_cases hv : valid (cand i) = true
      · rw [show trySamples cand valid (m + 1) i = some (cand i) from by
          simp [trySamples, hv]] at h
        exact absurd h (by simp)
      · have hv' : valid (cand i) = false := Bool.eq_false_iff.mpr hv
        have h' : trySamples cand valid m (i + 1) = none := by
          simpa [trySamples, hv'] using h
        cases j with
        | zero => simpa using hv'
        | succ k =>
          have hk := (ih (i + 1)).mp h' k (by omega)
          rwa [show i + (k + 1) = i + 1 + k from by omega]
    · intro hall
      have hv' : valid (cand i) = false := by simpa using hall 0 (Nat.succ_pos m)
      have hrec : trySamples cand valid m (i + 1) = none :=
        (ih (i + 1)).mpr fun j hj => by
          have hj' := hall (j + 1) (by omega)
          rwa [show i + (j + 1) = i + 1 + j from by omega] at hj'
      simp [trySamples, hv', hrec]

/-- A successful sample is a valid candidate drawn within the budget. -/
theorem trySamples_some {α : Type} (cand : ℕ → α) (valid : α → Bool) :
    ∀ (n i : ℕ) (a : α), trySamples cand valid n i = some a →
      valid a = true ∧ ∃ j < n, a = cand (i + j) := by
  intro n
  induction n with
  | zero =>
    intro i a h
    simp [trySamples] at h
  | succ m ih =>
    intro i a h
    by_cases hv : valid (cand i) = true
    · rw [show trySamples cand valid (m + 1) i = some (cand i) from by
        simp [trySamples, hv]] at h
      obtain rfl : cand i = a := by simpa using h
      exact ⟨hv, 0, Nat.succ_pos m, by simp⟩
    · have hv' : valid (cand i) = false := Bool.eq_false_iff.mpr hv
      have h' : trySamples cand valid m (i + 1) = some a := by
        simpa [trySamples, hv'] using h
      obtain ⟨hva, j, hj, hja⟩ := ih (i + 1) a h'
      refine ⟨hva, j + 1, by omega, ?_⟩
      rwa [show i + (j + 1) = i + 1 + j from by omega]

/-- Every street picked by `getNearbyStreets` comes from the full list. -/
theorem getNearbyStreets_subset (streets : List Lane) (center : Option Pt) (radius : ℚ) :
    ∀ x ∈ getNearbyStreets streets center radius, x ∈ streets := by
  intro x hx
  unfold getNearbyStreets at hx
  rcases center with _ | cp
  · exact hx
  · dsimp only at hx
    split at hx
    · exact List.mem_of_mem_filter hx
    · exact hx

/-! ### Claim C7 -/

/-- C7 counterexample: a spawn situation whose first ten samples are invalid
but whose eleventh sample is valid.  `spawnCar` (attempt budget 10) spawns
no car, although a valid sample exists within the claimed 20-attempt budget
(the 20-attempt sampler finds it). -/
theorem spawn_budget_counterexample :
    (spawnCar [testLane] [⟨0, 0, 2, 2⟩] 1.2 0 budgetSamples 0 [] []).1 = [] ∧
    carSpawnValid testLane [] [⟨0, 0, 2, 2⟩] 1.2 (budgetSamples 10 * 0.3) = true ∧
    trySamples (fun i => budgetSamples i * 0.3)
      (carSpawnValid testLane [] [⟨0, 0, 2, 2⟩] 1.2) 20 0 = some 0.3 := by
  refine ⟨by decide, by decide, by decide⟩

/-- C7 (amended): spawn sampling is a bounded rejection loop returning no
result (and raising no error) on exhaustion, but the budgets differ: 10
attempts for cars (`spawnCar`), 20 for pedestrians (`spawnNPC`); car
placement checks spacing and obstacle collision only, pedestrian placement
additionally checks distance to the player. -/
theorem spawn_budget_behavior :
    (∀ streets buildings (carRadius : ℚ) laneChoice samples (speedRand : ℚ) cars spawned,
       (∀ street ∈ streets, ∀ j < 10,
          carSpawnValid street cars buildings carRadius (samples j * 0.3) = false) →
       (spawnCar streets buildings carRadius laneChoice samples speedRand cars spawned).1
         = cars) ∧
    (∀ streets buildings (carRadius : ℚ) laneChoice samples (speedRand : ℚ) cars spawned,
       (spawnCar streets buildings carRadius laneChoice samples speedRand cars spawned).1
         ≠ cars →
       ∃ street ∈ streets, ∃ j < 10,
          carSpawnValid street cars buildings carRadius (samples j * 0.3) = true) ∧
    (∀ streets buildings playerPos laneChoice samples (st : NpcState),
       (∀ street ∈ streets, ∀ j < 20,
          npcSpawnValid st.npcs playerPos buildings
            (npcSpawnCand street playerPos samples j) = false) →
       (spawnNPC streets buildings playerPos laneChoice samples st).npcs = st.npcs) := by
  refine ⟨?_, ?_, ?_⟩
  · intro streets buildings carRadius laneChoice samples speedRand cars spawned hall
    unfold spawnCar
    by_cases hS : streets.isEmpty = true
    · simp only [if_pos hS]
    · simp only [if_neg hS]
      rcases hav : (if (streets.filter fun s => !spawned.contains s.id).isEmpty = true
          then streets else streets.filter fun s => !spawned.contains s.id)
        with _ | ⟨st0, rest⟩
      · rfl
      · dsimp only
        have hmem0 : (st0 :: rest).getD (laneChoice % (st0 :: rest).length) st0 ∈ st0 :: rest :=
          getD_mem _ _ _ (Nat.mod_lt _ (Nat.succ_pos _))
        have hmem1 : (st0 :: rest).getD (laneChoice % (st0 :: rest).length) st0 ∈
            (if (streets.filter fun s => !spawned.contains s.id).isEmpty = true
              then streets else streets.filter fun s => !spawned.contains s.id) := by
          rw [hav]
          exact hmem0
        have hstreet : (st0 :: rest).getD (laneChoice % (st0 :: rest).length) st0 ∈ streets := by
          split at hmem1
          · exact hmem1
          · exact List.mem_of_mem_filter hmem1
        have htry : trySamples (fun i => samples i * 0.3)
            (carSpawnValid ((st0 :: rest).getD (laneChoice % (st0 :: rest).length) st0)
              cars buildings carRadius) 10 0 = none :=
          (trySamples_eq_none _ _ 10 0).mpr fun j hj => by
            simpa using hall _ hstreet j hj
        rw [htry]
  · intro streets buildings carRadius laneChoice samples speedRand cars spawned hne
    unfold spawnCar at hne
    by_cases hS : streets.isEmpty = true
    · simp only [if_pos hS] at hne
      exact absurd rfl hne
    · simp only [if_neg hS] at hne
      rcases hav : (if (streets.filter fun s => !spawned.contains s.id).isEmpty = true
          then streets else streets.filter fun s => !spawned.contains s.id)
        with _ | ⟨st0, rest⟩
      · rw [hav] at hne
        exact absurd rfl hne
      · rw [hav] at hne
        dsimp only at hne
        have hmem0 : (st0 :: rest).getD (laneChoice % (st0 :: rest).length) st0 ∈ st0 :: rest :=
          getD_mem _ _ _ (Nat.mod_lt _ (Nat.succ_pos _))
        have hmem1 : (st0 :: rest).getD (laneChoice % (st0 :: rest).length) st0 ∈
            (if (streets.filter fun s => !spawned.contains s.id).isEmpty = true
              then streets else streets.filter fun s => !spawned.contains s.id) := by
          rw [hav]
          exact hmem0
        have hstreet : (st0 :: rest).getD (laneChoice % (st0 :: rest).length) st0 ∈ streets := by
          split at hmem1
          · exact hmem1
          · exact List.mem_of_mem_filter hmem1
        rcases htry : trySamples (fun i => samples i * 0.3)
            (carSpawnValid ((st0 :: rest).getD (laneChoice % (st0 :: rest).length) st0)
              cars buildings carRadius) 10 0 with _ | p
        · rw [htry] at hne
          exact absurd rfl hne
        · obtain ⟨hvalid, j, hj, hp⟩ := trySamples_some _ _ 10 0 p htry
          refine ⟨_, hstreet, j, hj, ?_⟩
          rw [hp] at hvalid
          simpa using hvalid
  · intro streets buildings playerPos laneChoice samples st hall
    unfold spawnNPC
    by_cases hS : streets.isEmpty = true
    · simp only [if_pos hS]
    · simp only [if_neg hS]
      by_cases hE1 : ((getNearbyStreets streets playerPos 40).filter fun s =>
          !st.usedSpawnStreetIds.contains s.id && !st.occupiedStreetIds.contains s.id).isEmpty
          = true
      · simp only [if_pos hE1]
        by_cases hE2 : ((getNearbyStreets streets playerPos 40).filter fun s =>
            !st.occupiedStreetIds.contains s.id).isEmpty = true
        · simp only [if_pos hE2]
          rcases hav : getNearbyStreets streets playerPos 40 with _ | ⟨st0, rest⟩
          · try rw [hav]
            rfl
          · try rw [hav]
            dsimp only
            have hmem0 : (st0 :: rest).getD (laneChoice % (st0 :: rest).length) st0
                ∈ st0 :: rest := getD_mem _ _ _ (Nat.mod_lt _ (Nat.succ_pos _))
            have hmem1 : (st0 :: rest).getD (laneChoice % (st0 :: rest).length) st0
                ∈ getNearbyStreets streets playerPos 40 := by
              rw [hav]
              exact hmem0
            have hstreet := getNearbyStreets_subset streets playerPos 40 _ hmem1
            have htry : trySamples
                (npcSpawnCand ((st0 :: rest).getD (laneChoice % (st0 :: rest).length) st0)
                  playerPos samples)
                (npcSpawnValid st.npcs playerPos buildings) 20 0 = none :=
              (trySamples_eq_none _ _ 20 0).mpr fun j hj => by
                simpa using hall _ hstreet j hj
            rw [htry]
        · simp only [if_neg hE2]
          rcases hav : (getNearbyStreets streets playerPos 40).filter
              (fun s => !st.occupiedStreetIds.contains s.id) with _ | ⟨st0, rest⟩
          · try rw [hav]
          · try rw [hav]
            dsimp only
            have hmem0 : (st0 :: rest).getD (laneChoice % (st0 :: rest).length) st0
                ∈ st0 :: rest := getD_mem _ _ _ (Nat.mod_lt _ (Nat.succ_pos _))
            have hmem1 : (st0 :: rest).getD (laneChoice % (st0 :: rest).length) st0
                ∈ (getNearbyStreets streets playerPos 40).filter
                    (fun s => !st.occupiedStreetIds.contains s.id) := by
              rw [hav]
              exact hmem0
            have hstreet := getNearbyStreets_subset streets playerPos 40 _
              (List.mem_of_mem_filter hmem1)
            have htry : trySamples
                (npcSpawnCand ((st0 :: rest).getD (laneChoice % (st0 :: rest).length) st0)
                  playerPos samples)
                (npcSpawnValid st.npcs playerPos buildings) 20 0 = none :=
              (trySamples_eq_none _ _ 20 0).mpr fun j hj => by
                simpa using hall _ hstreet j hj
            rw [htry]
      · simp only [if_neg hE1]
        rcases hav : (getNearbyStreets streets playerPos 40).filter
            (fun s => !st.usedSpawnStreetIds.contains s.id &&
              !st.occupiedStreetIds.contains s.id) with _ | ⟨st0, rest⟩
        · try rw [hav]
        · try rw [hav]
          dsimp only
          have hmem0 : (st0 :: rest).getD (laneChoice % (st0 :: rest).length) st0
              ∈ st0 :: rest := getD_mem _ _ _ (Nat.mod_lt _ (Nat.succ_pos _))
          have hmem1 : (st0 :: rest).getD (laneChoice % (st0 :: rest).length) st0
              ∈ (getNearbyStreets streets playerPos 40).filter
                  (fun s => !st.usedSpawnStreetIds.contains s.id &&
                    !st.occupiedStreetIds.contains s.id) := by
            rw [hav]
            exact hmem0
          have hstreet := getNearbyStreets_subset streets playerPos 40 _
            (List.mem_of_mem_filter hmem1)
          have htry : trySamples
              (npcSpawnCand ((st0 :: rest).getD (laneChoice % (st0 :: rest).length) st0)
                playerPos samples)
              (npcSpawnValid st.npcs playerPos buildings) 20 0 = none :=
            (trySamples_eq_none _ _ 20 0).mpr fun j hj => by
              simpa using hall _ hstreet j hj
          rw [htry]

/-- Witness for `spawn_budget_behavior`: with a building covering the whole
lane, no sample is ever valid, and both spawners return no agent without
error. -/
theorem spawn_budget_witness :
    (spawnCar [testLane] [⟨50, 1, 200, 200⟩] 1.2 0 (fun _ => 0) 0 [] []).1 = [] ∧
    (spawnNPC [testLane] [⟨50, 1, 200, 200⟩] none 0 (fun _ => 0) ⟨[], [], []⟩).npcs = [] := by
  constructor
  · exact spawn_budget_behavior.1 [testLane] [⟨50, 1, 200, 200⟩] 1.2 0 (fun _ => 0) 0 [] []
      (by decide)
  · exact spawn_budget_behavior.2.2 [testLane] [⟨50, 1, 200, 200⟩] none 0 (fun _ => 0)
      ⟨[], [], []⟩ (by decide)

/-- `spawnCar` never deletes an id from `spawnedStreetIds` as long as some
lane is still unused (the set is cleared only in the all-lanes-used
fallback). -/
theorem spawnCar_keeps_spawned (streets : List Lane) (buildings : List Building)
    (carRadius : ℚ) (laneChoice : ℕ) (samples : ℕ → ℚ) (speedRand : ℚ)
    (cars : List CarData) (spawned : List String)
    (hne : streets.filter (fun s => !spawned.contains s.id) ≠ []) :
    ∀ id ∈ spawned,
      id ∈ (spawnCar streets buildings carRadius laneChoice samples speedRand cars spawned).2 := by
  intro id hid
  unfold spawnCar
  by_cases hS : streets.isEmpty = true
  · simp only [if_pos hS]
    exact hid
  · simp only [if_neg hS]
    have hE : ¬ ((streets.filter fun s => !spawned.contains s.id).isEmpty = true) := by
      intro h
      exact hne (List.isEmpty_iff.mp h)
    simp only [if_neg hE]
    rcases hav : streets.filter (fun s => !spawned.contains s.id) with _ | ⟨st0, rest⟩
    · exact absurd hav hne
    · try rw [hav]
      dsimp only
      rcases htry : trySamples (fun i => samples i * 0.3)
          (carSpawnValid ((st0 :: rest).getD (laneChoice % (st0 :: rest).length) st0)
            cars buildings carRadius) 10 0 with _ | p
      · exact insertId_mem _ _ _ hid
      · exact insertId_mem _ _ _ hid

/-! ### Claim C8 -/

/-- C8 counterexample: a car on `h_1_right` with progress 1.3 expires; the
expiry step removes the car and a replacement spawn succeeds (population
back to 1), yet the prior lane id `h_1_right` is still in
`spawnedStreetIds` afterwards — car expiry releases nothing. -/
theorem carExpiry_keeps_laneId :
    "h_1_right" ∈ (carExpiryStep carStreetsList [] 1.2 20 0 (fun _ => 0) 0
      [⟨hLane1, 1.3, 0, 0, 3, 0, false⟩] ["h_1_right"] 0).2 ∧
    (carExpiryStep carStreetsList [] 1.2 20 0 (fun _ => 0) 0
      [⟨hLane1, 1.3, 0, 0, 3, 0, false⟩] ["h_1_right"] 0).1.length = 1 := by
  refine ⟨by decide, by decide⟩

/-- C8 (amended): on expiry (`progress > 1.2`) the agent is removed and one
replacement spawn is attempted while the population is below target (the
attempt may soft-fail, so the population returns to target only when it
succeeds).  Occupancy release differs between the populations: the NPC
implementation deletes the expired lane id from `occupiedStreetIds` (shown
in the no-respawn case, and concretely with a successful respawn), while the
car implementation never deletes the prior lane id from `spawnedStreetIds`
(as long as unused lanes remain, every id in the set survives the expiry
step). -/
theorem expiry_occupancy_behavior :
    (∀ streets buildings playerPos (count laneChoice : ℕ) samples (st : NpcState)
        (i : ℕ) (n : NpcData),
       st.npcs.get? i = some n → n.progress > 1.2 →
       count ≤ (st.npcs.eraseIdx i).length →
       (npcExpiryStep streets buildings playerPos count laneChoice samples st i).occupiedStreetIds
           = st.occupiedStreetIds.filter (fun id => id != n.currentStreet.id) ∧
       n.currentStreet.id ∉
         (npcExpiryStep streets buildings playerPos count laneChoice samples st i).occupiedStreetIds) ∧
    ("h_1_right_sw" ∉ (npcExpiryStep npcStreetsList [] none 5 1 (fun _ => 0)
        ⟨[⟨hSw1, 1.3, 0, 0, 0, 0, false, "idle"⟩], [], ["h_1_right_sw"]⟩ 0).occupiedStreetIds ∧
     (npcExpiryStep npcStreetsList [] none 5 1 (fun _ => 0)
        ⟨[⟨hSw1, 1.3, 0, 0, 0, 0, false, "idle"⟩], [], ["h_1_right_sw"]⟩ 0).npcs.length = 1) ∧
    (∀ streets buildings (carRadius : ℚ) (maxCars laneChoice : ℕ) samples (speedRand : ℚ)
        cars spawned (i : ℕ),
       streets.filter (fun s => !spawned.contains s.id) ≠ [] →
       ∀ id ∈ spawned,
         id ∈ (carExpiryStep streets buildings carRadius maxCars laneChoice samples speedRand
                 cars spawned i).2) := by
  refine ⟨?_, ⟨by decide, by decide⟩, ?_⟩
  · intro streets buildings playerPos count laneChoice samples st i n hget hprog hcount
    unfold npcExpiryStep
    rw [hget]
    dsimp only
    rw [if_pos hprog, if_neg (by omega : ¬ (st.npcs.eraseIdx i).length < count)]
    constructor
    · rfl
    · simp [List.mem_filter]
  · intro streets buildings carRadius maxCars laneChoice samples speedRand cars spawned i
      hne id hid
    unfold carExpiryStep
    rcases hget : cars.get? i with _ | cdata
    · try rw [hget]
      exact hid
    · try rw [hget]
      dsimp only
      by_cases hprog : cdata.progress > 1.2
      · rw [if_pos hprog]
        by_cases hlt : (cars.eraseIdx i).length < maxCars
        · rw [if_pos hlt]
          exact spawnCar_keeps_spawned streets buildings carRadius laneChoice samples speedRand
            (cars.eraseIdx i) spawned hne id hid
        · rw [if_neg hlt]
          exact hid
      · rw [if_neg hprog]
        exact hid

/-- Witness for `expiry_occupancy_behavior`: the NPC no-respawn expiry
releases the lane id, and the car expiry with a successful respawn keeps
the prior id in `spawnedStreetIds`. -/
theorem expiry_occupancy_witness :
    (⟨hSw1, 1.3, 0, 0, 0, 0, false, "idle"⟩ : NpcData).currentStreet.id ∉
      (npcExpiryStep npcStreetsList [] none 0 0 (fun _ => 0)
        ⟨[⟨hSw1, 1.3, 0, 0, 0, 0, false, "idle"⟩], [], ["h_1_right_sw"]⟩ 0).occupiedStreetIds ∧
    "h_1_right" ∈ (carExpiryStep carStreetsList [] 1.2 20 0 (fun _ => 0) 0
      [⟨hLane1, 1.3, 0, 0, 3, 0, false⟩] ["h_1_right"] 0).2 :=
  ⟨(expiry_occupancy_behavior.1 npcStreetsList [] none 0 0 (fun _ => 0)
      ⟨[⟨hSw1, 1.3, 0, 0, 0, 0, false, "idle"⟩], [], ["h_1_right_sw"]⟩ 0
      ⟨hSw1, 1.3, 0, 0, 0, 0, false, "idle"⟩ rfl (by decide) (by decide)).2,
   expiry_occupancy_behavior.2.2 carStreetsList [] 1.2 20 0 (fun _ => 0) 0
     [⟨hLane1, 1.3, 0, 0, 3, 0, false⟩] ["h_1_right"] 0 (by decide) "h_1_right" (by decide)⟩

/-- `Math.atan2` of a positive y on the x = 0 axis. -/
theorem atan2_pos_zero {y : ℝ} (hy : 0 < y) : atan2 y 0 = Real.pi / 2 := by
  unfold atan2
  rw [if_neg (lt_irrefl 0), if_neg (lt_irrefl 0), if_pos hy]

/-- `Math.atan2` of a negative y on the x = 0 axis. -/
theorem atan2_neg_zero {y : ℝ} (hy : y < 0) : atan2 y 0 = -(Real.pi / 2) := by
  unfold atan2
  rw [if_neg (lt_irrefl 0), if_neg (lt_irrefl 0), if_neg (lt_asymm hy), if_pos hy]

/-- `Math.atan2` of y = 0 with positive x. -/
theorem atan2_zero_pos {x : ℝ} (hx : 0 < x) : atan2 0 x = 0 := by
  unfold atan2
  rw [if_pos hx]
  simp [Real.arctan_zero]

/-- `Math.atan2` of y = 0 with negative x. -/
theorem atan2_zero_neg {x : ℝ} (hx : x < 0) : atan2 0 x = Real.pi := by
  unfold atan2
  rw [if_neg (lt_asymm hx), if_pos hx, if_pos le_rfl]
  simp [Real.arctan_zero]

/-- Every generated sidewalk lane falls into one of four classes: forward
horizontal (`right` tag, direction vector `(600, 0)`), reverse horizontal
(`(-600, 0)`), forward vertical (`down` tag, `(0, 600)`), reverse vertical
(`(0, -600)`). -/
theorem npcLanes_classify : ∀ l ∈ npcStreetsList,
    (l.direction = "horizontal" ∧ jsIncludes l.lane "right" = true ∧
      l.«end».x - l.start.x = 600 ∧ l.«end».z - l.start.z = 0) ∨
    (l.direction = "horizontal" ∧ jsIncludes l.lane "right" = false ∧
      l.«end».x - l.start.x = -600 ∧ l.«end».z - l.start.z = 0) ∨
    (l.direction = "vertical" ∧ jsIncludes l.lane "down" = true ∧
      l.«end».x - l.start.x = 0 ∧ l.«end».z - l.start.z = 600) ∨
    (l.direction = "vertical" ∧ jsIncludes l.lane "down" = false ∧
      l.«end».x - l.start.x = 0 ∧ l.«end».z - l.start.z = -600) := by
  decide

/-! ### Claim C9 -/

/-- C9 counterexample: no single fixed offset `c` (even modulo full turns)
makes the NPC turn heading equal `laneAngle + c` across the whole sidewalk
network: the horizontal lane `h_1_right_sw` forces `c ≡ 0 (mod 2π)` while
the vertical lane `v_1_down_sw` forces `c ≡ π (mod 2π)` — NPC headings for
vertical lanes are opposite to the movement vector's angle. -/
theorem npcHeading_not_vector_offset :
    ¬ ∃ c : ℝ, ∀ l ∈ npcStreetsList, ∃ k : ℤ,
        npcTurnRotY l = laneAngle l + c + 2 * Real.pi * k := by
  rintro ⟨c, h⟩
  obtain ⟨k1, h1⟩ := h hSw1 (by decide)
  obtain ⟨k2, h2⟩ := h vSw1 (by decide)
  have e1 : npcTurnRotY hSw1 = Real.pi / 2 := by
    have hinc : jsIncludes "right_sw" "right" = true := by decide
    simp [npcTurnRotY, hSw1, hinc]
  have a1 : laneAngle hSw1 = Real.pi / 2 := by
    unfold laneAngle
    rw [show ((hSw1.«end».x - hSw1.start.x : ℚ) : ℝ) = 600 by norm_num [hSw1],
        show ((hSw1.«end».z - hSw1.start.z : ℚ) : ℝ) = 0 by norm_num [hSw1]]
    exact atan2_pos_zero (by norm_num)
  have e2 : npcTurnRotY vSw1 = Real.pi := by
    have hinc : jsIncludes "down_sw" "down" = true := by decide
    simp [npcTurnRotY, vSw1, hinc]
  have a2 : laneAngle vSw1 = 0 := by
    unfold laneAngle
    rw [show ((vSw1.«end».x - vSw1.start.x : ℚ) : ℝ) = 0 by norm_num [vSw1],
        show ((vSw1.«end».z - vSw1.start.z : ℚ) : ℝ) = 600 by norm_num [vSw1]]
    exact atan2_zero_pos (by norm_num)
  rw [e1, a1] at h1
  rw [e2, a2] at h2
  have key : (2 * ((k2 : ℝ) - (k1 : ℝ)) - 1) * Real.pi = 0 := by
    ring_nf
    ring_nf at h1 h2
    linarith
  have hzero : 2 * ((k2 : ℝ) - (k1 : ℝ)) - 1 = 0 := by
    rcases mul_eq_zero.mp key with hz | hz
    · exact hz
    · exact absurd hz Real.pi_ne_zero
  have hcast : ((2 * (k2 - k1) : ℤ) : ℝ) = ((1 : ℤ) : ℝ) := by
    push_cast
    linarith
  have : (2 * (k2 - k1) : ℤ) = 1 := by exact_mod_cast hcast
  omega

/-- C9 (amended): the car turn heading is always the movement-vector angle
plus the fixed offset π (this is literally how car.js computes it, for every
lane including reverse ones).  The NPC turn heading is a constant picked
from the lane tag: it equals the movement-vector angle for every horizontal
sidewalk lane, but is off by π (±π) from it for every vertical sidewalk
lane. -/
theorem turnHeading_formulas :
    (∀ l : Lane, carTurnRotY l = laneAngle l + Real.pi) ∧
    (∀ l ∈ npcStreetsList,
       (l.direction = "horizontal" → npcTurnRotY l = laneAngle l) ∧
       (l.direction = "vertical" →
         npcTurnRotY l = laneAngle l + Real.pi ∨ npcTurnRotY l = laneAngle l - Real.pi)) := by
  constructor
  · intro l
    rfl
  · intro l hl
    rcases npcLanes_classify l hl with ⟨hd, hi, hx, hz⟩ | ⟨hd, hi, hx, hz⟩ |
      ⟨hd, hi, hx, hz⟩ | ⟨hd, hi, hx, hz⟩
    · constructor
      · intro _
        have e : npcTurnRotY l = Real.pi / 2 := by simp [npcTurnRotY, hd, hi]
        have a : laneAngle l = Real.pi / 2 := by
          unfold laneAngle
          rw [hx, hz, show ((600 : ℚ) : ℝ) = 600 by norm_num,
              show ((0 : ℚ) : ℝ) = 0 by norm_num]
          exact atan2_pos_zero (by norm_num)
        rw [e, a]
      · intro hv
        rw [hd] at hv
        simp at hv
    · constructor
      · intro _
        have e : npcTurnRotY l = -(Real.pi / 2) := by simp [npcTurnRotY, hd, hi]
        have a : laneAngle l = -(Real.pi / 2) := by
          unfold laneAngle
          rw [hx, hz, show ((-600 : ℚ) : ℝ) = -600 by norm_num,
              show ((0 : ℚ) : ℝ) = 0 by norm_num]
          exact atan2_neg_zero (by norm_num)
        rw [e, a]
      · intro hv
        rw [hd] at hv
        simp at hv
    · constructor
      · intro hh
        rw [hd] at hh
        simp at hh
      · intro _
        have e : npcTurnRotY l = Real.pi := by simp [npcTurnRotY, hd, hi]
        have a : laneAngle l = 0 := by
          unfold laneAngle
          rw [hx, hz, show ((600 : ℚ) : ℝ) = 600 by norm_num,
              show ((0 : ℚ) : ℝ) = 0 by norm_num]
          exact atan2_zero_pos (by norm_num)
        left
        rw [e, a]
        ring
    · constructor
      · intro hh
        rw [hd] at hh
        simp at hh
      · intro _
        have e : npcTurnRotY l = 0 := by simp [npcTurnRotY, hd, hi]
        have a : laneAngle l = Real.pi := by
          unfold laneAngle
          rw [hx, hz, show ((-600 : ℚ) : ℝ) = -600 by norm_num,
              show ((0 : ℚ) : ℝ) = 0 by norm_num]
          exact atan2_zero_neg (by norm_num)
        right
        rw [e, a]
        ring

/-- Witness for `turnHeading_formulas` at concrete sidewalk lanes: the
horizontal lane heading equals its vector angle; the vertical lane heading
differs from its vector angle by exactly π. -/
theorem turnHeading_witness :
    npcTurnRotY hSw1 = laneAngle hSw1 ∧
    (npcTurnRotY vSw1 = laneAngle vSw1 + Real.pi ∨
     npcTurnRotY vSw1 = laneAngle vSw1 - Real.pi) :=
  ⟨(turnHeading_formulas.2 hSw1 (by decide)).1 rfl,
   (turnHeading_formulas.2 vSw1 (by decide)).2 rfl⟩

/-! ### Claim C10 -/

/-- C10: in both generated networks, no reverse-direction lane (tags `left`,
`up`, `left_sw`, `up_sw` — whose stored start coordinate exceeds their end
coordinate) is ever a member of any intersection's connected-street set,
because `getConnectedStreets` requires `start ≤ coordinate ≤ end` on the
stored values; consequently `performTurn` / `npcPerformTurn` can never move
an agent onto a reverse-direction lane. -/
theorem reverse_lanes_unreachable :
    (∀ itx ∈ carIntersectionsList, ∀ s ∈ carStreetsList,
        s.lane = "left" ∨ s.lane = "up" → s.id ∉ itx.connectedStreets) ∧
    (∀ itx ∈ npcIntersectionsList, ∀ s ∈ npcStreetsList,
        s.lane = "left_sw" ∨ s.lane = "up_sw" → s.id ∉ itx.connectedStreets) ∧
    (∀ itx ∈ carIntersectionsList, ∀ pick (c : CarData),
        c.currentStreet ∈ carStreetsList →
        (performTurn carStreetsList itx pick c).currentStreet ∈ carStreetsList ∧
        ((performTurn carStreetsList itx pick c).currentStreet = c.currentStreet ∨
         ((performTurn carStreetsList itx pick c).currentStreet.lane ≠ "left" ∧
          (performTurn carStreetsList itx pick c).currentStreet.lane ≠ "up"))) ∧
    (∀ itx ∈ npcIntersectionsList, ∀ occupied pick (n : NpcData),
        n.currentStreet ∈ npcStreetsList →
        (npcPerformTurn npcStreetsList occupied itx pick n).1.currentStreet ∈ npcStreetsList ∧
        ((npcPerformTurn npcStreetsList occupied itx pick n).1.currentStreet = n.currentStreet ∨
         ((npcPerformTurn npcStreetsList occupied itx pick n).1.currentStreet.lane ≠ "left_sw" ∧
          (npcPerformTurn npcStreetsList occupied itx pick n).1.currentStreet.lane ≠ "up_sw"))) := by
  have h1 : ∀ itx ∈ carIntersectionsList, ∀ s ∈ carStreetsList,
      s.lane = "left" ∨ s.lane = "up" → s.id ∉ itx.connectedStreets := by decide
  have h2 : ∀ itx ∈ npcIntersectionsList, ∀ s ∈ npcStreetsList,
      s.lane = "left_sw" ∨ s.lane = "up_sw" → s.id ∉ itx.connectedStreets := by decide
  refine ⟨h1, h2, ?_, ?_⟩
  · intro itx hitx pick c hc
    rcases performTurn_cases carStreetsList itx pick c with he | ⟨ns, hmem, hconn, _, _, heq⟩
    · rw [he]
      exact ⟨hc, Or.inl rfl⟩
    · rw [heq]
      refine ⟨hmem, Or.inr ⟨?_, ?_⟩⟩
      · intro hl
        exact h1 itx hitx ns hmem (Or.inl hl) hconn
      · intro hl
        exact h1 itx hitx ns hmem (Or.inr hl) hconn
  · intro itx hitx occupied pick n hn
    rcases npcPerformTurn_cases npcStreetsList occupied itx pick n with he | ⟨ns, hmem, hconn, _, _, heq⟩
    · rw [he]
      exact ⟨hn, Or.inl rfl⟩
    · rw [heq]
      refine ⟨hmem, Or.inr ⟨?_, ?_⟩⟩
      · intro hl
        exact h2 itx hitx ns hmem (Or.inl hl) hconn
      · intro hl
        exact h2 itx hitx ns hmem (Or.inr hl) hconn

/-- Witness for `reverse_lanes_unreachable` at the concrete intersection
`(-285, -285)`: the reverse lane `h_1_left` is not connected there, and a
turn executed there never lands on a reverse-direction vehicle lane. -/
theorem reverse_lanes_unreachable_witness :
    hLane1L.id ∉ itx1.connectedStreets ∧
    ((performTurn carStreetsList itx1 0 carBlocked).currentStreet = carBlocked.currentStreet ∨
     ((performTurn carStreetsList itx1 0 carBlocked).currentStreet.lane ≠ "left" ∧
      (performTurn carStreetsList itx1 0 carBlocked).currentStreet.lane ≠ "up")) :=
  ⟨reverse_lanes_unreachable.1 itx1 (by decide) hLane1L (by decide) (Or.inl rfl),
   (reverse_lanes_unreachable.2.2.1 itx1 (by decide) 0 carBlocked (by decide)).2⟩

end GTA
